import Mathlib

/-!
# Verification of the CRM webhook-ingestion workflow

A shallow embedding of the n8n webhook controller
(`apps/api/src/controllers/n8n.controller.ts`), the Gemini text-analysis
sanitizer (`apps/api/src/lib/gemini.ts`) and the relevant parts of the
Prisma schema (`prisma/migrations/20250903011014_init/migration.sql`),
together with theorems about the ingestion pipeline: authentication,
customer resolution, message recording, asynchronous enrichment and lead
derivation.

Modelling conventions:
* Database ids are `Nat`, generated from a monotone `nextId` counter
  (the real system uses cuid strings; only freshness matters here).
* JSON values that the controller reads with Prisma filter semantics are
  three-valued: absent (`undefined` in JS, dropped from the filter), `null`
  (matches a NULL column) or a string.  This is the documented Prisma
  behaviour for `undefined` versus `null` in a `where` clause.
* The store is a triple of lists (customers, messages, leads) plus the id
  counter; Prisma `findFirst` is `List.find?` (no `orderBy` is given in the
  source, so table order = insertion order).
* Store writes are validated against the schema: Prisma rejects a write
  whose enum-typed value lies outside the corresponding migration enum (the
  controller's `as any` casts bypass only the TypeScript check, not the
  runtime one), and rejects an update/insert that violates the row's
  existence/foreign-key requirements.  A rejected write throws: in the
  synchronous handler the outer catch answers 500, and in the detached
  continuation the rejection aborts the rest of the continuation (only a
  log remains), before any later store action or event.
* Timestamps, the `company`/`notes` customer columns and the opaque message
  `metadata` blob are omitted: no claim mentions them.
* The fire-and-forget enrichment continuation (lines 96-182 of the
  controller) is modelled as an explicit second step `processAnalysis`
  applied to the state left by the synchronous handler.
-/

/-- A JSON field as seen by a Prisma `where` filter: absent (`undefined`),
explicit `null`, or a string value. -/
inductive JVal where
  | undef : JVal
  | null : JVal
  | str : String → JVal
deriving DecidableEq, Repr

/-- Prisma filter semantics of a single field condition `{ field: v }`
against a stored nullable column: an `undefined` value is dropped from the
filter (matches every row), `null` matches a NULL column, a string matches
that string. -/
def jvalMatch : JVal → Option String → Bool
  | JVal.undef, _ => true
  | JVal.null, stored => stored.isNone
  | JVal.str s, stored => stored == some s

/-- Value stored when the controller writes this field with
`prisma.customer.create` (`undefined` and `null` both store NULL). -/
def jvalToStored : JVal → Option String
  | JVal.undef => none
  | JVal.null => none
  | JVal.str s => some s

/-- ASCII lower-casing, the behaviour of JS `toLowerCase` on the ASCII
enum strings involved here; written over the character list so that the
kernel can evaluate it. -/
def lowerString (s : String) : String := ⟨s.data.map Char.toLower⟩

/-- `toChannelUpper` from the controller: lower-case the (optional) channel
string; `whatsapp`/`instagram` map to the canonical upper-cased value,
anything else maps to the `UNKNOWN` sentinel. -/
def toChannelUpper (c : Option String) : String :=
  let channel := lowerString (c.getD "")
  if channel = "whatsapp" then "WHATSAPP"
  else if channel = "instagram" then "INSTAGRAM"
  else "UNKNOWN"

/-- `toDirectionUpper` from the controller: `outbound` (any casing) maps to
`OUTBOUND`, anything else defaults to `INBOUND`. -/
def toDirectionUpper (d : Option String) : String :=
  let direction := lowerString (d.getD "")
  if direction = "outbound" then "OUTBOUND" else "INBOUND"

/-- The `customers` row (id, name, email, phone, source, status, tags);
per the migration, `status` defaults to `ACTIVE`. -/
structure Customer where
  id : Nat
  name : String
  email : Option String
  phone : Option String
  source : String
  status : String
  tags : List String
deriving DecidableEq, Repr

/-- The `messages` row; `sentiment`, `leadScore`, `intent` are nullable
enrichment columns, `tags` is a (possibly empty) list. -/
structure Message where
  id : Nat
  customerId : Nat
  content : String
  direction : String
  platform : String
  sentiment : Option String
  leadScore : Option Int
  intent : Option String
  tags : List String
deriving DecidableEq, Repr

/-- The `leads` row. -/
structure Lead where
  id : Nat
  customerId : Nat
  score : Int
  status : String
  source : String
  notes : Option String
deriving DecidableEq, Repr

/-- The persistent store: the three tables touched by the webhook workflow
plus the id generator. -/
structure Db where
  customers : List Customer
  messages : List Message
  leads : List Lead
  nextId : Nat
deriving DecidableEq, Repr

/-- `payload.customer`. -/
structure CustomerInput where
  name : String
  phone : JVal
  email : JVal
deriving DecidableEq, Repr

/-- `payload.message`. -/
structure MessageInput where
  content : String
  direction : Option String
deriving DecidableEq, Repr

/-- The `N8NWebhookPayload` body; each of the three top-level fields may be
absent, and the truthiness test of the controller also rejects an empty
platform string. -/
structure N8NWebhookPayload where
  platform : Option String
  customer : Option CustomerInput
  message : Option MessageInput
deriving DecidableEq, Repr

/-- The controller's validation guard
`!payload.platform || !payload.customer || !payload.message`
(a string is truthy iff non-empty; an object is truthy iff present). -/
def wellFormedPayload (p : N8NWebhookPayload) : Bool :=
  (match p.platform with
   | some s => !s.isEmpty
   | none => false)
  && p.customer.isSome && p.message.isSome

/-- The members of the `CustomerSource` enum of the Prisma migration. -/
def customerSourceValues : List String :=
  ["WHATSAPP", "INSTAGRAM", "MANUAL", "OTHER"]

/-- The members of the `CustomerStatus` enum of the Prisma migration. -/
def customerStatusValues : List String := ["ACTIVE", "INACTIVE", "BLOCKED"]

/-- The members of the `MessageDirection` enum of the Prisma migration. -/
def messageDirectionValues : List String := ["INBOUND", "OUTBOUND"]

/-- The members of the `MessagePlatform` enum of the Prisma migration. -/
def messagePlatformValues : List String := ["WHATSAPP", "INSTAGRAM", "MANUAL"]

/-- The members of the `Sentiment` enum of the Prisma migration. -/
def sentimentValues : List String := ["POSITIVE", "NEUTRAL", "NEGATIVE"]

/-- The members of the `LeadStatus` enum of the Prisma migration. -/
def leadStatusValues : List String :=
  ["NEW", "CONTACTED", "QUALIFIED", "PROPOSAL", "NEGOTIATION", "CLOSED_WON",
   "CLOSED_LOST"]

/-- A `customer.create` is accepted only when its enum-typed columns carry
members of the schema enums; otherwise Prisma rejects the write and the
statement throws. -/
def customerRowValid (c : Customer) : Bool :=
  customerSourceValues.contains c.source &&
  customerStatusValues.contains c.status

/-- A `message.create` is accepted only when its enum-typed columns carry
members of the schema enums (`sentiment` is nullable, so `none` is fine). -/
def messageRowValid (m : Message) : Bool :=
  messagePlatformValues.contains m.platform &&
  messageDirectionValues.contains m.direction &&
  (match m.sentiment with
   | none => true
   | some s => sentimentValues.contains s)

/-- A `lead.create` is accepted only when its `status` is a `LeadStatus`
member. -/
def leadRowValid (l : Lead) : Bool := leadStatusValues.contains l.status

/-- The Prisma `findFirst` filter of the customer-resolution step:
`OR: [{phone: payload.customer.phone}, {email: payload.customer.email}]`,
with each absent field dropped from the filter (hence trivially true). -/
def customerFilter (pc : CustomerInput) (c : Customer) : Bool :=
  jvalMatch pc.phone c.phone || jvalMatch pc.email c.email

/-- Customer resolution (controller lines 47-70): `findFirst` on the
phone-or-email filter; on a miss, create a customer with the normalized
platform as `source`, the schema-default `ACTIVE` status and an empty tag
list, and emit `customer:new`.  `none` models the thrown write: the
`CustomerSource` enum rejects a `source` outside its members (in
particular the `UNKNOWN` sentinel), so the create throws and nothing is
stored or emitted. -/
def findOrCreateCustomer (pc : CustomerInput) (plat : String) (db : Db) :
    Option (Customer × Db × List String) :=
  match db.customers.find? (customerFilter pc) with
  | some c => some (c, db, [])
  | none =>
    let c : Customer :=
      { id := db.nextId, name := pc.name, email := jvalToStored pc.email,
        phone := jvalToStored pc.phone, source := toChannelUpper (some plat),
        status := "ACTIVE", tags := [] }
    if customerRowValid c then
      some (c, { db with customers := db.customers ++ [c],
                         nextId := db.nextId + 1 },
            ["customer:new"])
    else none

/-- The data the detached enrichment continuation closes over: the message
content handed to `analyzeText`, the resolved customer id, the created
message id and the raw payload platform string (used verbatim in the lead
`source`). -/
structure PendingAnalysis where
  content : String
  customerId : Nat
  messageId : Nat
  platform : String
deriving DecidableEq, Repr

/-- Result of the synchronous part of `handleWebhook`: HTTP status, the
`success` flag, the optional `data: {customerId, messageId}` body, the store
after the synchronous writes, the realtime events emitted so far, and the
detached continuation (if one was launched). -/
structure HandlerResult where
  status : Nat
  success : Bool
  data : Option (Nat × Nat)
  db : Db
  events : List String
  pending : Option PendingAnalysis
deriving DecidableEq, Repr

/-- The synchronous part of `N8NWebhookController.handleWebhook`
(lines 24-95 and 184-191): secret check, payload validation, customer
resolution, message creation with null enrichment fields, `message:new`
event, and the 200 response carrying the two ids.  A thrown store write —
reachable exactly when the normalized platform is the `UNKNOWN` sentinel,
which neither `CustomerSource` nor `MessagePlatform` contains — lands in
the outer catch: a 500 `{success:false}` response, with whatever partial
writes and events happened before the throw kept (the workflow is not
transactional).  The asynchronous continuation is returned as `pending`
and run by `processAnalysis`. -/
def handleWebhook (cfg hdr : Option String) (payload : N8NWebhookPayload)
    (db : Db) : HandlerResult :=
  if hdr ≠ cfg then
    { status := 401, success := false, data := none, db := db, events := [],
      pending := none }
  else
    match payload.platform, payload.customer, payload.message with
    | some plat, some pc, some pm =>
      if plat.isEmpty then
        { status := 400, success := false, data := none, db := db,
          events := [], pending := none }
      else
        match findOrCreateCustomer pc plat db with
        | none =>
          { status := 500, success := false, data := none, db := db,
            events := [], pending := none }
        | some r =>
          let customer := r.1
          let db1 := r.2.1
          let evs1 := r.2.2
          let msg : Message :=
            { id := db1.nextId, customerId := customer.id,
              content := pm.content,
              direction := toDirectionUpper pm.direction,
              platform := toChannelUpper (some plat),
              sentiment := none, leadScore := none, intent := none,
              tags := [] }
          if messageRowValid msg then
            { status := 200, success := true,
              data := some (customer.id, msg.id),
              db := { db1 with messages := db1.messages ++ [msg],
                               nextId := db1.nextId + 1 },
              events := evs1 ++ ["message:new"],
              pending := some { content := pm.content,
                                customerId := customer.id,
                                messageId := msg.id, platform := plat } }
          else
            { status := 500, success := false, data := none, db := db1,
              events := evs1, pending := none }
    | _, _, _ =>
      { status := 400, success := false, data := none, db := db, events := [],
        pending := none }

/-- The sanitized analysis result returned by `analyzeText`. -/
structure TextAnalysis where
  sentiment : String
  score : Int
  intent : String
  tags : List String
deriving DecidableEq, Repr

/-- A tag entry of the raw model response: a string, or a JSON value of any
other type (which the sanitizer filters out). -/
inductive RawTag where
  | str : String → RawTag
  | nonString : RawTag
deriving DecidableEq, Repr

/-- The `tags` field of the raw model response: an array, or any non-array
JSON value. -/
inductive RawTags where
  | notArray : RawTags
  | arr : List RawTag → RawTags
deriving DecidableEq, Repr

/-- A successfully received and JSON-parsed model response, before
sanitization.  `score` is the result of `parseInt`: `some n` when the field
parses to the integer `n`, `none` when it yields `NaN`. -/
structure RawAnalysis where
  sentiment : Option String
  score : Option Int
  intent : Option String
  tags : RawTags
deriving DecidableEq, Repr

/-- `toSentimentUpper` from `gemini.ts`: case-insensitive mapping onto the
five canonical sentiment strings, anything unrecognized collapsing to
`NEUTRAL`. -/
def toSentimentUpper (s : Option String) : String :=
  let m := lowerString (s.getD "")
  if m = "positive" then "POSITIVE"
  else if m = "negative" then "NEGATIVE"
  else if m = "very_positive" then "VERY_POSITIVE"
  else if m = "very_negative" then "VERY_NEGATIVE"
  else "NEUTRAL"

/-- `Math.max(0, Math.min(100, parseInt(analysis.score) || 50))`: `NaN` and
`0` are falsy, so both fall back to `50`; the result is then clamped into
`[0,100]`. -/
def sanitizeScore (raw : Option Int) : Int :=
  let v : Int := match raw with
    | none => 50
    | some n => if n = 0 then 50 else n
  max 0 (min 100 v)

/-- `analysis.tags.slice(0,5).filter(t => typeof t === "string")` when the
field is an array, `[]` otherwise. -/
def sanitizeTags : RawTags → List String
  | RawTags.notArray => []
  | RawTags.arr l =>
    (l.take 5).filterMap (fun t => match t with
      | RawTag.str s => some s
      | RawTag.nonString => none)

/-- `analysis.intent || "general inquiry"` (empty string is falsy). -/
def sanitizeIntent (raw : Option String) : String :=
  match raw with
  | some s => if s.isEmpty then "general inquiry" else s
  | none => "general inquiry"

/-- `analyzeText` from `gemini.ts`: the input is `some raw` when the model
call returned a parsable response within the 8 s budget, and `none` when the
call threw, timed out or the response failed to JSON-parse (all of which
land in the same `catch`).  On failure the fixed neutral default is
returned; on success the response is sanitized field by field. -/
def analyzeText : Option RawAnalysis → TextAnalysis
  | none =>
    { sentiment := "NEUTRAL", score := 50, intent := "general inquiry",
      tags := [] }
  | some raw =>
    { sentiment := toSentimentUpper raw.sentiment,
      score := sanitizeScore raw.score,
      intent := sanitizeIntent raw.intent,
      tags := sanitizeTags raw.tags }

/-- The message update of the enrichment continuation (controller lines
99-118), applied to each row with the continuation's message id. -/
def enrichMessage (a : TextAnalysis) (mid : Nat) (m : Message) : Message :=
  if m.id = mid then
    { m with sentiment := some a.sentiment, leadScore := some a.score,
             intent := some a.intent, tags := a.tags }
  else m

/-- The notes written by the lead-update branch (controller lines 135-137):
append to existing notes separated by a blank line, or start fresh. -/
def leadNotesAppend (existing : Option String) (intent : String) : String :=
  match existing with
  | some n => n ++ "\n\nNew analysis: " ++ intent
  | none => "AI Analysis: " ++ intent

/-- The asynchronous enrichment continuation (controller lines 98-179):
update the message with the analysis, emit `message:updated`; then, iff the
score reaches the threshold 70, find the customer's first lead and either
bump it (monotone max score, accumulated notes, `lead:update`) or create a
fresh one (`status NEW`, score as analyzed, provenance naming the raw
payload platform, `lead:new`).

Thrown store writes abort the rest of the chain (the promise rejection
lands in the `.catch`, which only logs): the message update throws when
the analysis sentiment is outside the three-member `Sentiment` enum
(reachable: `toSentimentUpper` can emit `VERY_POSITIVE`/`VERY_NEGATIVE`)
or when no message row carries the continuation's id — then nothing at all
is written or emitted; a lead create whose status or customer reference is
not accepted throws after the message update, so the update and its event
survive but no lead row or lead event appears. -/
def processAnalysis (db : Db) (p : PendingAnalysis) (a : TextAnalysis) :
    Db × List String :=
  if sentimentValues.contains a.sentiment &&
      db.messages.any (fun m => m.id == p.messageId) then
    let db1 :=
      { db with messages := db.messages.map (enrichMessage a p.messageId) }
    if 70 ≤ a.score then
      match db1.leads.find? (fun l => l.customerId == p.customerId) with
      | some l =>
        let db2 := { db1 with leads := db1.leads.map (fun x =>
          if x.id = l.id then
            { x with score := max l.score a.score,
                     notes := some (leadNotesAppend l.notes a.intent) }
          else x) }
        (db2, ["message:updated", "lead:update"])
      | none =>
        let newLead : Lead :=
          { id := db1.nextId, customerId := p.customerId, score := a.score,
            status := "NEW", source := "AI Analysis - " ++ p.platform,
            notes := some ("AI Analysis: " ++ a.intent) }
        if leadRowValid newLead &&
            db1.customers.any (fun c => c.id == p.customerId) then
          ({ db1 with leads := db1.leads ++ [newLead],
                      nextId := db1.nextId + 1 },
           ["message:updated", "lead:new"])
        else (db1, ["message:updated"])
    else (db1, ["message:updated"])
  else (db, [])

/-- The whole ingestion pipeline: synchronous handler followed (when a
continuation was launched) by the enrichment continuation fed the outcome
`raw` of the external analysis call.  The first component is the HTTP
response, already sent before the continuation runs. -/
def webhookPipeline (cfg hdr : Option String) (payload : N8NWebhookPayload)
    (raw : Option RawAnalysis) (db : Db) :
    HandlerResult × Db × List String :=
  let r := handleWebhook cfg hdr payload db
  match r.pending with
  | some p =>
    let s := processAnalysis r.db p (analyzeText raw)
    (r, s.1, r.events ++ s.2)
  | none => (r, r.db, r.events)

/-- A platform string whose normalization is storable in both schema
enums: exactly `whatsapp`/`instagram` in any casing (everything else maps
to the `UNKNOWN` sentinel, which both enums reject). -/
def platformKnown (plat : String) : Bool :=
  lowerString plat == "whatsapp" || lowerString plat == "instagram"

/-- The payload-level version of `platformKnown`. -/
def knownPlatformPayload (p : N8NWebhookPayload) : Bool :=
  match p.platform with
  | some s => platformKnown s
  | none => false

/-- All ids stored in the three tables are below the generator: the
freshness invariant the id counter maintains. -/
def Db.fresh (db : Db) : Prop :=
  (∀ c ∈ db.customers, c.id < db.nextId) ∧
  (∀ m ∈ db.messages, m.id < db.nextId) ∧
  (∀ l ∈ db.leads, l.id < db.nextId)

instance (db : Db) : Decidable db.fresh := by
  unfold Db.fresh; infer_instance

/-! ## Helper lemmas -/

theorem toChannelUpper_known (plat : String) (h : platformKnown plat = true) :
    toChannelUpper (some plat) = "WHATSAPP" ∨
    toChannelUpper (some plat) = "INSTAGRAM" := by
  unfold platformKnown at h
  rw [Bool.or_eq_true, beq_iff_eq, beq_iff_eq] at h
  unfold toChannelUpper
  rcases h with h | h <;> simp [h]

theorem toChannelUpper_mem_enums (plat : String)
    (h : platformKnown plat = true) :
    customerSourceValues.contains (toChannelUpper (some plat)) = true ∧
    messagePlatformValues.contains (toChannelUpper (some plat)) = true := by
  rcases toChannelUpper_known plat h with h' | h' <;> rw [h'] <;>
    exact ⟨rfl, rfl⟩

theorem toDirectionUpper_mem (d : Option String) :
    messageDirectionValues.contains (toDirectionUpper d) = true := by
  unfold toDirectionUpper
  dsimp only
  split <;> rfl

theorem findOrCreateCustomer_preserves (pc : CustomerInput) (plat : String)
    (db : Db) (r : Customer × Db × List String)
    (h : findOrCreateCustomer pc plat db = some r) :
    r.2.1.messages = db.messages ∧ r.2.1.leads = db.leads ∧
    db.nextId ≤ r.2.1.nextId := by
  unfold findOrCreateCustomer at h
  cases hf : db.customers.find? (customerFilter pc) <;> rw [hf] at h
  · dsimp only at h
    split at h
    · obtain rfl := Option.some.inj h
      simp
    · exact absurd h (by simp)
  · obtain rfl := Option.some.inj h
    simp

theorem findOrCreateCustomer_some (pc : CustomerInput) (plat : String)
    (db : Db)
    (h : customerSourceValues.contains (toChannelUpper (some plat)) = true) :
    ∃ r, findOrCreateCustomer pc plat db = some r := by
  unfold findOrCreateCustomer
  cases hf : db.customers.find? (customerFilter pc)
  · have h' : toChannelUpper (some plat) ∈ customerSourceValues := by
      simpa using h
    have hv : customerRowValid
        { id := db.nextId, name := pc.name, email := jvalToStored pc.email,
          phone := jvalToStored pc.phone,
          source := toChannelUpper (some plat), status := "ACTIVE",
          tags := [] } = true := by
      simp [customerRowValid, customerStatusValues, h']
    exact ⟨_, by rw [if_pos hv]⟩
  · exact ⟨_, rfl⟩

theorem handleWebhook_ok_eq (cfg : Option String) (plat : String)
    (pc : CustomerInput) (pm : MessageInput) (db : Db)
    (r : Customer × Db × List String) (hne : plat.isEmpty = false)
    (hfc : findOrCreateCustomer pc plat db = some r)
    (hmv : messageRowValid
      { id := r.2.1.nextId, customerId := r.1.id, content := pm.content,
        direction := toDirectionUpper pm.direction,
        platform := toChannelUpper (some plat),
        sentiment := none, leadScore := none, intent := none,
        tags := [] } = true) :
    handleWebhook cfg cfg ⟨some plat, some pc, some pm⟩ db =
      { status := 200, success := true,
        data := some (r.1.id, r.2.1.nextId),
        db := { r.2.1 with
                  messages := r.2.1.messages ++
                    [{ id := r.2.1.nextId, customerId := r.1.id,
                       content := pm.content,
                       direction := toDirectionUpper pm.direction,
                       platform := toChannelUpper (some plat),
                       sentiment := none, leadScore := none, intent := none,
                       tags := [] }],
                  nextId := r.2.1.nextId + 1 },
        events := r.2.2 ++ ["message:new"],
        pending := some { content := pm.content, customerId := r.1.id,
                          messageId := r.2.1.nextId, platform := plat } } := by
  simp [handleWebhook, hne, hfc, hmv]

theorem handleWebhook_ok_spec (cfg hdr : Option String)
    (payload : N8NWebhookPayload) (db : Db)
    (hauth : hdr = cfg) (hwf : wellFormedPayload payload = true)
    (hkp : knownPlatformPayload payload = true) :
    (handleWebhook cfg hdr payload db).status = 200 ∧
    (handleWebhook cfg hdr payload db).success = true ∧
    ∃ m : Message,
      (handleWebhook cfg hdr payload db).db.messages = db.messages ++ [m] ∧
      (handleWebhook cfg hdr payload db).data = some (m.customerId, m.id) ∧
      m.sentiment = none ∧ m.leadScore = none ∧ m.intent = none ∧
      m.tags = [] := by
  subst hauth
  rcases payload with ⟨po, co, mo⟩
  cases po with
  | none => simp [wellFormedPayload] at hwf
  | some plat =>
    cases co with
    | none => simp [wellFormedPayload] at hwf
    | some pc =>
      cases mo with
      | none => simp [wellFormedPayload] at hwf
      | some pm =>
        simp only [wellFormedPayload, Bool.and_eq_true, Option.isSome_some,
          Bool.not_eq_true', and_true] at hwf
        have hne : plat.isEmpty = false := by simpa using hwf
        have hkn : platformKnown plat = true := by
          simpa [knownPlatformPayload] using hkp
        obtain ⟨hsrc, hplat⟩ := toChannelUpper_mem_enums plat hkn
        obtain ⟨r, hfc⟩ := findOrCreateCustomer_some pc plat db hsrc
        have hmv : messageRowValid
            { id := r.2.1.nextId, customerId := r.1.id, content := pm.content,
              direction := toDirectionUpper pm.direction,
              platform := toChannelUpper (some plat),
              sentiment := none, leadScore := none, intent := none,
              tags := [] } = true := by
          unfold messageRowValid
          rw [hplat, toDirectionUpper_mem]
          rfl
        rw [handleWebhook_ok_eq hdr plat pc pm db r hne hfc hmv]
        obtain ⟨hm, -, -⟩ := findOrCreateCustomer_preserves pc plat db r hfc
        refine ⟨rfl, rfl,
          ⟨{ id := r.2.1.nextId, customerId := r.1.id, content := pm.content,
             direction := toDirectionUpper pm.direction,
             platform := toChannelUpper (some plat),
             sentiment := none, leadScore := none, intent := none,
             tags := [] }, ?_, rfl, rfl, rfl, rfl, rfl⟩⟩
        simp [hm]

theorem handleWebhook_same_secret_status (cfg : Option String)
    (payload : N8NWebhookPayload) (db : Db) :
    (handleWebhook cfg cfg payload db).status = 200 ∨
    (handleWebhook cfg cfg payload db).status = 400 ∨
    (handleWebhook cfg cfg payload db).status = 500 := by
  rcases payload with ⟨po, co, mo⟩
  cases po <;> cases co <;> cases mo <;>
    first
    | (simp only [handleWebhook, if_neg (fun h : cfg ≠ cfg => h rfl)]
       split
       · simp
       · split
         · simp
         · split <;> simp)
    | simp [handleWebhook]

theorem map_enrichMessage_of_ne (a : TextAnalysis) (mid : Nat)
    (xs : List Message) (h : ∀ m ∈ xs, m.id ≠ mid) :
    xs.map (enrichMessage a mid) = xs := by
  induction xs with
  | nil => rfl
  | cons x xs ih =>
    have hx : x.id ≠ mid := h x (List.mem_cons_self x xs)
    simp only [List.map_cons, enrichMessage, if_neg hx]
    rw [ih (fun m hm => h m (List.mem_cons_of_mem x hm))]

/-! ## Concrete fixtures used by the witnesses and counterexamples -/

/-- A configured shared secret. -/
def sampleSecret : Option String := some "s3cret"

/-- A well-formed authorized payload on a schema-storable platform. -/
def samplePayload : N8NWebhookPayload :=
  { platform := some "whatsapp",
    customer := some { name := "Ann", phone := JVal.str "+1",
                       email := JVal.str "ann@example.com" },
    message := some { content := "I want to buy now",
                      direction := some "inbound" } }

/-- An empty store. -/
def sampleDb : Db := { customers := [], messages := [], leads := [], nextId := 0 }

/-- A stored customer whose phone and email differ from the sample payload's. -/
def bobCustomer : Customer :=
  { id := 0, name := "Bob", email := some "bob@example.com",
    phone := some "+2", source := "MANUAL", status := "ACTIVE", tags := [] }

/-- A store holding only `bobCustomer`. -/
def oneCustomerDb : Db :=
  { customers := [bobCustomer], messages := [], leads := [], nextId := 1 }

/-- A sample message body. -/
def sampleMessageInput : MessageInput :=
  { content := "hello there", direction := some "inbound" }

/-- A payload whose customer has a phone but no email field at all. -/
def phoneOnlyPayload : N8NWebhookPayload :=
  { platform := some "whatsapp",
    customer := some { name := "Ann", phone := JVal.str "+1",
                       email := JVal.undef },
    message := some sampleMessageInput }

/-! ## Claims -/

/-- C1 counterexample: an authorized request whose body has truthy
platform, customer and message fields, but whose platform string `sms`
normalizes to the `UNKNOWN` sentinel: the customer insert is rejected by
the `CustomerSource` enum, the handler answers 500, and no Message (or any
other) row is created — against the claimed 200 with exactly one new
Message row. -/
theorem webhook_unknown_platform_counterexample :
    wellFormedPayload
      ⟨some "sms", some ⟨"Ann", JVal.str "+1", JVal.str "ann@example.com"⟩,
       some sampleMessageInput⟩ = true ∧
    (handleWebhook sampleSecret sampleSecret
        ⟨some "sms", some ⟨"Ann", JVal.str "+1", JVal.str "ann@example.com"⟩,
         some sampleMessageInput⟩ sampleDb).status = 500 ∧
    ¬ (handleWebhook sampleSecret sampleSecret
        ⟨some "sms", some ⟨"Ann", JVal.str "+1", JVal.str "ann@example.com"⟩,
         some sampleMessageInput⟩ sampleDb).status = 200 ∧
    (handleWebhook sampleSecret sampleSecret
        ⟨some "sms", some ⟨"Ann", JVal.str "+1", JVal.str "ann@example.com"⟩,
         some sampleMessageInput⟩ sampleDb).success = false ∧
    (handleWebhook sampleSecret sampleSecret
        ⟨some "sms", some ⟨"Ann", JVal.str "+1", JVal.str "ann@example.com"⟩,
         some sampleMessageInput⟩ sampleDb).db = sampleDb := by
  decide

/-- C1 (amended): for an authorized well-formed request whose platform is
whatsapp or instagram in any casing — the platforms whose normalization the
schema enums accept — the handler responds 200 with `success: true` and
`data = (customerId, messageId)`, appends exactly one new Message row whose
enrichment fields (`sentiment`, `leadScore`, `intent`, `tags`) are unset at
creation time, and a repeated identical request appends yet another row (no
deduplication). -/
theorem webhook_creates_one_message_no_dedup (cfg hdr : Option String)
    (payload : N8NWebhookPayload) (db : Db)
    (hauth : hdr = cfg) (hwf : wellFormedPayload payload = true)
    (hkp : knownPlatformPayload payload = true) :
    (handleWebhook cfg hdr payload db).status = 200 ∧
    (handleWebhook cfg hdr payload db).success = true ∧
    (∃ m : Message,
      (handleWebhook cfg hdr payload db).db.messages = db.messages ++ [m] ∧
      (handleWebhook cfg hdr payload db).data = some (m.customerId, m.id) ∧
      m.sentiment = none ∧ m.leadScore = none ∧ m.intent = none ∧
      m.tags = []) ∧
    (∃ m2 : Message,
      (handleWebhook cfg hdr payload
          (handleWebhook cfg hdr payload db).db).db.messages =
        (handleWebhook cfg hdr payload db).db.messages ++ [m2]) := by
  obtain ⟨h1, h2, h3⟩ := handleWebhook_ok_spec cfg hdr payload db hauth hwf hkp
  obtain ⟨-, -, m2, hm2, -⟩ :=
    handleWebhook_ok_spec cfg hdr payload
      (handleWebhook cfg hdr payload db).db hauth hwf hkp
  exact ⟨h1, h2, h3, m2, hm2⟩

theorem webhook_creates_one_message_no_dedup_witness :
    (handleWebhook sampleSecret sampleSecret samplePayload sampleDb).status = 200 ∧
    (handleWebhook sampleSecret sampleSecret samplePayload sampleDb).success = true ∧
    (∃ m : Message,
      (handleWebhook sampleSecret sampleSecret samplePayload sampleDb).db.messages =
        sampleDb.messages ++ [m] ∧
      (handleWebhook sampleSecret sampleSecret samplePayload sampleDb).data =
        some (m.customerId, m.id) ∧
      m.sentiment = none ∧ m.leadScore = none ∧ m.intent = none ∧
      m.tags = []) ∧
    (∃ m2 : Message,
      (handleWebhook sampleSecret sampleSecret samplePayload
          (handleWebhook sampleSecret sampleSecret samplePayload sampleDb).db).db.messages =
        (handleWebhook sampleSecret sampleSecret samplePayload sampleDb).db.messages ++ [m2]) :=
  webhook_creates_one_message_no_dedup sampleSecret sampleSecret samplePayload
    sampleDb rfl (by decide) (by decide)

/-- C9: the guard compares header and configured secret with strict
inequality, so a 401 arises exactly when the two differ; in particular with
the secret unconfigured and the header absent (both `none`) the check
passes and ingestion proceeds — exhibited by a 200 and a stored Message on
a well-formed payload whose platform the schema accepts. -/
theorem unset_secret_passes_auth (cfg hdr : Option String)
    (payload : N8NWebhookPayload) (db : Db) :
    ((handleWebhook cfg hdr payload db).status = 401 ↔ hdr ≠ cfg) ∧
    (cfg = none → hdr = none → wellFormedPayload payload = true →
      knownPlatformPayload payload = true →
      (handleWebhook cfg hdr payload db).status = 200 ∧
      ∃ m : Message,
        (handleWebhook cfg hdr payload db).db.messages = db.messages ++ [m]) := by
  constructor
  · constructor
    · intro h401 heq
      subst heq
      rcases handleWebhook_same_secret_status hdr payload db with h | h | h <;>
        omega
    · intro h; simp [handleWebhook, h]
  · intro hc hh hwf hkp
    obtain ⟨h1, -, m, hm, -⟩ :=
      handleWebhook_ok_spec cfg hdr payload db (by rw [hc, hh]) hwf hkp
    exact ⟨h1, m, hm⟩

theorem unset_secret_passes_auth_witness :
    ((handleWebhook none none samplePayload sampleDb).status = 401 ↔
      (none : Option String) ≠ none) ∧
    ((none : Option String) = none → (none : Option String) = none →
      wellFormedPayload samplePayload = true →
      knownPlatformPayload samplePayload = true →
      (handleWebhook none none samplePayload sampleDb).status = 200 ∧
      ∃ m : Message,
        (handleWebhook none none samplePayload sampleDb).db.messages =
          sampleDb.messages ++ [m]) :=
  unset_secret_passes_auth none none samplePayload sampleDb

/-- C3 counterexample: the store holds a single customer with phone `+2`
and email `bob@example.com`; the authorized payload carries phone `+1` and
no email.  No stored customer's phone or email equals the payload's, yet no
new Customer is created: the absent email makes the second `OR` branch of
the Prisma filter trivially true, so the lookup reuses Bob and the message
is attached to him. -/
theorem customer_resolution_counterexample :
    oneCustomerDb.customers.map Customer.phone = [some "+2"] ∧
    oneCustomerDb.customers.map Customer.email = [some "bob@example.com"] ∧
    phoneOnlyPayload.customer =
      some { name := "Ann", phone := JVal.str "+1", email := JVal.undef } ∧
    (handleWebhook sampleSecret sampleSecret phoneOnlyPayload oneCustomerDb).status = 200 ∧
    (handleWebhook sampleSecret sampleSecret phoneOnlyPayload oneCustomerDb).db.customers =
      oneCustomerDb.customers ∧
    (handleWebhook sampleSecret sampleSecret phoneOnlyPayload oneCustomerDb).db.messages.map
      Message.customerId = [0] := by
  decide

/-- C3 (amended): for an authorized well-formed payload whose platform the
schema enums accept (whatsapp/instagram in any casing) and whose customer
carries both a phone string and an email string, resolution behaves as the
claim states: a stored customer matching on phone or email is reused with
no field updates and no new row; otherwise exactly one new Customer is
created with status `ACTIVE`, an empty tag set and the normalized platform
as source.  (The amendment restricts the claim twice, each time forced by
an exhibited failure: an absent contact field is dropped from the Prisma
`OR` filter, which then matches every row — see the counterexample — and
an unrecognized platform makes the customer/message insert throw and the
request fail with 500 instead of creating anything — see the C8
exhibit.) -/
theorem customer_resolution_amended (cfg hdr : Option String)
    (plat nm ph em : String) (pm : MessageInput) (db : Db)
    (hauth : hdr = cfg) (hne : plat.isEmpty = false)
    (hkn : platformKnown plat = true) :
    (∀ c : Customer,
      db.customers.find? (fun x => x.phone == some ph || x.email == some em) = some c →
      (handleWebhook cfg hdr
          ⟨some plat, some ⟨nm, JVal.str ph, JVal.str em⟩, some pm⟩ db).db.customers =
        db.customers ∧
      ∃ m : Message,
        (handleWebhook cfg hdr
            ⟨some plat, some ⟨nm, JVal.str ph, JVal.str em⟩, some pm⟩ db).db.messages =
          db.messages ++ [m] ∧ m.customerId = c.id) ∧
    (db.customers.find? (fun x => x.phone == some ph || x.email == some em) = none →
      ∃ cNew : Customer,
        (handleWebhook cfg hdr
            ⟨some plat, some ⟨nm, JVal.str ph, JVal.str em⟩, some pm⟩ db).db.customers =
          db.customers ++ [cNew] ∧
        cNew.status = "ACTIVE" ∧ cNew.tags = [] ∧
        cNew.source = toChannelUpper (some plat) ∧
        ∃ m : Message,
          (handleWebhook cfg hdr
              ⟨some plat, some ⟨nm, JVal.str ph, JVal.str em⟩, some pm⟩ db).db.messages =
            db.messages ++ [m] ∧ m.customerId = cNew.id) := by
  subst hauth
  obtain ⟨hsrc, hplat⟩ := toChannelUpper_mem_enums plat hkn
  have hfe : customerFilter ⟨nm, JVal.str ph, JVal.str em⟩ =
      fun x => x.phone == some ph || x.email == some em := by
    funext x; rfl
  constructor
  · intro c hc
    have hfc : findOrCreateCustomer ⟨nm, JVal.str ph, JVal.str em⟩ plat db =
        some (c, db, []) := by
      unfold findOrCreateCustomer
      rw [hfe, hc]
    have hmv : messageRowValid
        { id := db.nextId, customerId := c.id, content := pm.content,
          direction := toDirectionUpper pm.direction,
          platform := toChannelUpper (some plat),
          sentiment := none, leadScore := none, intent := none,
          tags := [] } = true := by
      unfold messageRowValid
      rw [hplat, toDirectionUpper_mem]
      rfl
    rw [handleWebhook_ok_eq hdr plat _ pm db (c, db, []) hne hfc hmv]
    exact ⟨rfl, _, rfl, rfl⟩
  · intro hc
    have h' : toChannelUpper (some plat) ∈ customerSourceValues := by
      simpa using hsrc
    have hv : customerRowValid
        ⟨db.nextId, nm, some em, some ph, toChannelUpper (some plat),
         "ACTIVE", []⟩ = true := by
      simp [customerRowValid, customerStatusValues, h']
    have hfc : findOrCreateCustomer ⟨nm, JVal.str ph, JVal.str em⟩ plat db =
        some (⟨db.nextId, nm, some em, some ph, toChannelUpper (some plat),
               "ACTIVE", []⟩,
              { db with
                  customers := db.customers ++
                    [⟨db.nextId, nm, some em, some ph,
                      toChannelUpper (some plat), "ACTIVE", []⟩],
                  nextId := db.nextId + 1 },
              ["customer:new"]) := by
      unfold findOrCreateCustomer
      rw [hfe, hc]
      dsimp only [jvalToStored]
      rw [if_pos hv]
    have hmv : messageRowValid
        { id := db.nextId + 1, customerId := db.nextId, content := pm.content,
          direction := toDirectionUpper pm.direction,
          platform := toChannelUpper (some plat),
          sentiment := none, leadScore := none, intent := none,
          tags := [] } = true := by
      unfold messageRowValid
      rw [hplat, toDirectionUpper_mem]
      rfl
    rw [handleWebhook_ok_eq hdr plat _ pm db _ hne hfc hmv]
    exact ⟨_, rfl, rfl, rfl, rfl, _, rfl, rfl⟩

theorem customer_resolution_amended_witness :
    (∀ c : Customer,
      oneCustomerDb.customers.find?
          (fun x => x.phone == some "+2" || x.email == some "ann@example.com") = some c →
      (handleWebhook sampleSecret sampleSecret
          ⟨some "whatsapp", some ⟨"Ann", JVal.str "+2", JVal.str "ann@example.com"⟩,
           some sampleMessageInput⟩ oneCustomerDb).db.customers =
        oneCustomerDb.customers ∧
      ∃ m : Message,
        (handleWebhook sampleSecret sampleSecret
            ⟨some "whatsapp", some ⟨"Ann", JVal.str "+2", JVal.str "ann@example.com"⟩,
             some sampleMessageInput⟩ oneCustomerDb).db.messages =
          oneCustomerDb.messages ++ [m] ∧ m.customerId = c.id) ∧
    (oneCustomerDb.customers.find?
        (fun x => x.phone == some "+2" || x.email == some "ann@example.com") = none →
      ∃ cNew : Customer,
        (handleWebhook sampleSecret sampleSecret
            ⟨some "whatsapp", some ⟨"Ann", JVal.str "+2", JVal.str "ann@example.com"⟩,
             some sampleMessageInput⟩ oneCustomerDb).db.customers =
          oneCustomerDb.customers ++ [cNew] ∧
        cNew.status = "ACTIVE" ∧ cNew.tags = [] ∧
        cNew.source = toChannelUpper (some "whatsapp") ∧
        ∃ m : Message,
          (handleWebhook sampleSecret sampleSecret
              ⟨some "whatsapp", some ⟨"Ann", JVal.str "+2", JVal.str "ann@example.com"⟩,
               some sampleMessageInput⟩ oneCustomerDb).db.messages =
            oneCustomerDb.messages ++ [m] ∧ m.customerId = cNew.id) :=
  customer_resolution_amended sampleSecret sampleSecret "whatsapp" "Ann" "+2"
    "ann@example.com" sampleMessageInput oneCustomerDb rfl (by decide) (by decide)

/-- C10 counterexample: an authorized payload with platform `telegram` and
no contact fields, against a store holding one customer: the lookup does
return that first customer, but the message insert of the `UNKNOWN`
platform is rejected by the `MessagePlatform` enum, the handler answers
500, and no Message is attached to anyone — against the claimed
attachment. -/
theorem absent_contact_unknown_platform_counterexample :
    (handleWebhook sampleSecret sampleSecret
        ⟨some "telegram", some ⟨"Ann", JVal.undef, JVal.undef⟩,
         some sampleMessageInput⟩ oneCustomerDb).status = 500 ∧
    (handleWebhook sampleSecret sampleSecret
        ⟨some "telegram", some ⟨"Ann", JVal.undef, JVal.undef⟩,
         some sampleMessageInput⟩ oneCustomerDb).db = oneCustomerDb ∧
    (handleWebhook sampleSecret sampleSecret
        ⟨some "telegram", some ⟨"Ann", JVal.undef, JVal.undef⟩,
         some sampleMessageInput⟩ oneCustomerDb).db.messages = [] ∧
    (handleWebhook sampleSecret sampleSecret
        ⟨some "telegram", some ⟨"Ann", JVal.undef, JVal.undef⟩,
         some sampleMessageInput⟩ oneCustomerDb).events = [] := by
  decide

/-- C10 (amended): for an authorized well-formed payload whose platform the
schema enums accept (whatsapp/instagram in any casing) and whose customer
carries neither a phone nor an email, both `OR` branches of the lookup
filter are vacuous, so against a non-empty customer store the lookup
returns the first stored customer: the message is attached to it and no new
Customer is created.  (The platform restriction is forced by the
counterexample: on an unrecognized platform the message insert throws and
nothing is attached.) -/
theorem absent_contact_attaches_first_customer (cfg hdr : Option String)
    (plat nm : String) (pm : MessageInput) (c0 : Customer)
    (rest : List Customer) (msgs : List Message) (lds : List Lead)
    (nid : Nat) (hauth : hdr = cfg) (hne : plat.isEmpty = false)
    (hkn : platformKnown plat = true) :
    (handleWebhook cfg hdr
        ⟨some plat, some ⟨nm, JVal.undef, JVal.undef⟩, some pm⟩
        ⟨c0 :: rest, msgs, lds, nid⟩).status = 200 ∧
    (handleWebhook cfg hdr
        ⟨some plat, some ⟨nm, JVal.undef, JVal.undef⟩, some pm⟩
        ⟨c0 :: rest, msgs, lds, nid⟩).db.customers = c0 :: rest ∧
    ∃ m : Message,
      (handleWebhook cfg hdr
          ⟨some plat, some ⟨nm, JVal.undef, JVal.undef⟩, some pm⟩
          ⟨c0 :: rest, msgs, lds, nid⟩).db.messages = msgs ++ [m] ∧
      m.customerId = c0.id := by
  subst hauth
  obtain ⟨hsrc, hplat⟩ := toChannelUpper_mem_enums plat hkn
  have hfc : findOrCreateCustomer ⟨nm, JVal.undef, JVal.undef⟩ plat
      ⟨c0 :: rest, msgs, lds, nid⟩ =
      some (c0, ⟨c0 :: rest, msgs, lds, nid⟩, []) := by
    unfold findOrCreateCustomer
    rw [List.find?_cons_of_pos _ (by rfl)]
  have hmv : messageRowValid
      { id := nid, customerId := c0.id, content := pm.content,
        direction := toDirectionUpper pm.direction,
        platform := toChannelUpper (some plat),
        sentiment := none, leadScore := none, intent := none,
        tags := [] } = true := by
    unfold messageRowValid
    rw [hplat, toDirectionUpper_mem]
    rfl
  rw [handleWebhook_ok_eq hdr plat _ pm _ _ hne hfc hmv]
  exact ⟨rfl, rfl, _, rfl, rfl⟩

theorem absent_contact_attaches_first_customer_witness :
    (handleWebhook sampleSecret sampleSecret
        ⟨some "whatsapp", some ⟨"Ann", JVal.undef, JVal.undef⟩,
         some sampleMessageInput⟩
        ⟨bobCustomer :: [], [], [], 1⟩).status = 200 ∧
    (handleWebhook sampleSecret sampleSecret
        ⟨some "whatsapp", some ⟨"Ann", JVal.undef, JVal.undef⟩,
         some sampleMessageInput⟩
        ⟨bobCustomer :: [], [], [], 1⟩).db.customers = bobCustomer :: [] ∧
    ∃ m : Message,
      (handleWebhook sampleSecret sampleSecret
          ⟨some "whatsapp", some ⟨"Ann", JVal.undef, JVal.undef⟩,
           some sampleMessageInput⟩
          ⟨bobCustomer :: [], [], [], 1⟩).db.messages = [] ++ [m] ∧
      m.customerId = bobCustomer.id :=
  absent_contact_attaches_first_customer sampleSecret sampleSecret "whatsapp"
    "Ann" sampleMessageInput bobCustomer [] [] [] 1 rfl (by decide) (by decide)

/-- A stored message for `bobCustomer`, not yet enriched. -/
def bobMessage : Message :=
  { id := 1, customerId := 0, content := "hi", direction := "INBOUND",
    platform := "WHATSAPP", sentiment := none, leadScore := none,
    intent := none, tags := [] }

/-- An existing lead of score 60 for `bobCustomer`. -/
def bobLead : Lead :=
  { id := 2, customerId := 0, score := 60, status := "NEW",
    source := "AI Analysis - whatsapp",
    notes := some "AI Analysis: pricing question" }

/-- A store whose only customer already has a lead of score 60. -/
def leadDb : Db :=
  { customers := [bobCustomer], messages := [bobMessage], leads := [bobLead],
    nextId := 3 }

/-- A store with a customer and a message but no lead yet. -/
def noLeadDb : Db :=
  { customers := [bobCustomer], messages := [bobMessage], leads := [],
    nextId := 3 }

/-- A sample pending continuation matching `bobMessage`. -/
def samplePending : PendingAnalysis :=
  { content := "I want to buy now", customerId := 0, messageId := 1,
    platform := "whatsapp" }

/-- A sample completed analysis with a sub-threshold score. -/
def lowAnalysis : TextAnalysis :=
  { sentiment := "NEUTRAL", score := 65, intent := "browsing", tags := [] }

/-- A sample completed analysis with a high score. -/
def highAnalysis : TextAnalysis :=
  { sentiment := "POSITIVE", score := 80, intent := "ready to purchase",
    tags := ["hot"] }

/-- A reachable completed analysis whose sentiment the `Sentiment` enum
rejects (`toSentimentUpper` emits it for a `very_positive` model reply). -/
def veryAnalysis : TextAnalysis :=
  { sentiment := "VERY_POSITIVE", score := 80, intent := "ready to buy",
    tags := ["hot"] }

/-- C4 counterexample: a completed enrichment with the reachable sentiment
`VERY_POSITIVE` and score 80, for a customer with no existing lead: the
claim requires exactly one new Lead, but the message update throws on the
three-member `Sentiment` enum, the continuation aborts, and neither a Lead
row nor any event is produced. -/
theorem lead_threshold_counterexample :
    sentimentValues.contains veryAnalysis.sentiment = false ∧
    70 ≤ veryAnalysis.score ∧
    noLeadDb.leads = [] ∧
    (processAnalysis noLeadDb samplePending veryAnalysis).1 = noLeadDb ∧
    (processAnalysis noLeadDb samplePending veryAnalysis).2 = [] := by
  decide

/-- C4 (amended): for a completed enrichment whose sentiment the schema's
`Sentiment` enum accepts, applied to a store that holds the continuation's
message: a score below 70 triggers no lead action (the lead table and the
event stream beyond `message:updated` are untouched); with score at least
70, no existing lead for the customer, and the customer present in the
store, exactly one new Lead is appended, with status `NEW`, the enrichment
score, and a source string naming AI analysis and the originating
platform.  (The sentiment restriction is forced by the counterexample: a
`VERY_*` sentiment makes the message update throw, aborting the
continuation before any lead action.) -/
theorem lead_threshold_rules (db : Db) (p : PendingAnalysis)
    (a : TextAnalysis)
    (hs : sentimentValues.contains a.sentiment = true)
    (hex : db.messages.any (fun m => m.id == p.messageId) = true) :
    (a.score < 70 →
      (processAnalysis db p a).1.leads = db.leads ∧
      (processAnalysis db p a).2 = ["message:updated"]) ∧
    (70 ≤ a.score →
      db.leads.find? (fun l => l.customerId == p.customerId) = none →
      db.customers.any (fun c => c.id == p.customerId) = true →
      ∃ l : Lead,
        (processAnalysis db p a).1.leads = db.leads ++ [l] ∧
        l.status = "NEW" ∧ l.score = a.score ∧
        l.source = "AI Analysis - " ++ p.platform ∧
        l.notes = some ("AI Analysis: " ++ a.intent)) := by
  have hgate : (sentimentValues.contains a.sentiment &&
      db.messages.any (fun m => m.id == p.messageId)) = true := by
    rw [hs, hex]; rfl
  constructor
  · intro hlt
    unfold processAnalysis
    rw [if_pos hgate, if_neg (by omega)]
    exact ⟨rfl, rfl⟩
  · intro hge hnone hcust
    unfold processAnalysis
    rw [if_pos hgate, if_pos hge]
    simp only [hnone]
    split
    · exact ⟨_, rfl, rfl, rfl, rfl, rfl⟩
    · rename_i hfalse
      exact absurd (by simp [leadRowValid, leadStatusValues, hcust]) hfalse

theorem lead_threshold_rules_witness :
    ((processAnalysis leadDb samplePending lowAnalysis).1.leads = leadDb.leads ∧
     (processAnalysis leadDb samplePending lowAnalysis).2 = ["message:updated"]) ∧
    (∃ l : Lead,
      (processAnalysis noLeadDb samplePending highAnalysis).1.leads =
        noLeadDb.leads ++ [l] ∧
      l.status = "NEW" ∧ l.score = highAnalysis.score ∧
      l.source = "AI Analysis - " ++ samplePending.platform ∧
      l.notes = some ("AI Analysis: " ++ highAnalysis.intent)) :=
  ⟨(lead_threshold_rules leadDb samplePending lowAnalysis
      (by decide) (by decide)).1 (by decide),
   (lead_threshold_rules noLeadDb samplePending highAnalysis
      (by decide) (by decide)).2 (by decide) (by decide) (by decide)⟩

/-- C6: when the analysis collaborator fails (throw, timeout or unparsable
response), `analyzeText` returns exactly the neutral default; for a request
the handler accepted (authorized, well-formed, schema-storable platform)
the created message is then updated with those values (not left null) —
the `NEUTRAL` default is a `Sentiment` member, so the update is accepted —
the lead table is untouched (50 < 70), and the webhook caller's response
is the same one it gets for any analysis outcome: the failure is never
surfaced. -/
theorem analysis_failure_neutral_default (cfg hdr : Option String)
    (payload : N8NWebhookPayload) (db : Db)
    (hauth : hdr = cfg) (hwf : wellFormedPayload payload = true)
    (hkp : knownPlatformPayload payload = true) (hfresh : db.fresh) :
    analyzeText none =
      { sentiment := "NEUTRAL", score := 50, intent := "general inquiry",
        tags := [] } ∧
    (∀ raw : Option RawAnalysis,
      (webhookPipeline cfg hdr payload raw db).1 =
        handleWebhook cfg hdr payload db) ∧
    (webhookPipeline cfg hdr payload none db).1.status = 200 ∧
    (webhookPipeline cfg hdr payload none db).1.success = true ∧
    (webhookPipeline cfg hdr payload none db).2.1.leads = db.leads ∧
    ∃ m : Message,
      (webhookPipeline cfg hdr payload none db).2.1.messages =
        db.messages ++ [m] ∧
      m.sentiment = some "NEUTRAL" ∧ m.leadScore = some 50 ∧
      m.intent = some "general inquiry" ∧ m.tags = [] := by
  subst hauth
  refine ⟨rfl, ?_, ?_⟩
  · intro raw
    unfold webhookPipeline
    cases hp : (handleWebhook hdr hdr payload db).pending <;> simp [hp]
  · rcases payload with ⟨po, co, mo⟩
    cases po with
    | none => simp [wellFormedPayload] at hwf
    | some plat =>
      cases co with
      | none => simp [wellFormedPayload] at hwf
      | some pc =>
        cases mo with
        | none => simp [wellFormedPayload] at hwf
        | some pm =>
          simp only [wellFormedPayload, Bool.and_eq_true, Option.isSome_some,
            Bool.not_eq_true', and_true] at hwf
          have hne : plat.isEmpty = false := by simpa using hwf
          have hkn : platformKnown plat = true := by
            simpa [knownPlatformPayload] using hkp
          obtain ⟨hsrc, hplat⟩ := toChannelUpper_mem_enums plat hkn
          obtain ⟨r, hfc⟩ := findOrCreateCustomer_some pc plat db hsrc
          have hmv : messageRowValid
              { id := r.2.1.nextId, customerId := r.1.id,
                content := pm.content,
                direction := toDirectionUpper pm.direction,
                platform := toChannelUpper (some plat),
                sentiment := none, leadScore := none, intent := none,
                tags := [] } = true := by
            unfold messageRowValid
            rw [hplat, toDirectionUpper_mem]
            rfl
          unfold webhookPipeline
          rw [handleWebhook_ok_eq hdr plat pc pm db r hne hfc hmv]
          obtain ⟨hmsgs, hleads, hnid⟩ :=
            findOrCreateCustomer_preserves pc plat db r hfc
          unfold processAnalysis
          simp only [show analyzeText none =
            ⟨"NEUTRAL", 50, "general inquiry", []⟩ from rfl]
          norm_num
          refine ⟨hleads, ?_⟩
          rw [hmsgs, map_enrichMessage_of_ne _ _ db.messages
            (fun m hm => Nat.ne_of_lt (lt_of_lt_of_le (hfresh.2.1 m hm) hnid))]
          exact ⟨_, rfl, by simp [enrichMessage], by simp [enrichMessage],
            by simp [enrichMessage], by simp [enrichMessage]⟩

theorem analysis_failure_neutral_default_witness :
    analyzeText none =
      { sentiment := "NEUTRAL", score := 50, intent := "general inquiry",
        tags := [] } ∧
    (∀ raw : Option RawAnalysis,
      (webhookPipeline sampleSecret sampleSecret samplePayload raw sampleDb).1 =
        handleWebhook sampleSecret sampleSecret samplePayload sampleDb) ∧
    (webhookPipeline sampleSecret sampleSecret samplePayload none sampleDb).1.status = 200 ∧
    (webhookPipeline sampleSecret sampleSecret samplePayload none sampleDb).1.success = true ∧
    (webhookPipeline sampleSecret sampleSecret samplePayload none sampleDb).2.1.leads =
      sampleDb.leads ∧
    ∃ m : Message,
      (webhookPipeline sampleSecret sampleSecret samplePayload none sampleDb).2.1.messages =
        sampleDb.messages ++ [m] ∧
      m.sentiment = some "NEUTRAL" ∧ m.leadScore = some 50 ∧
      m.intent = some "general inquiry" ∧ m.tags = [] :=
  analysis_failure_neutral_default sampleSecret sampleSecret samplePayload
    sampleDb rfl (by decide) (by decide) (by decide)

/-- C7 counterexample: an out-of-range numeric score is clamped, not
collapsed to 50 — the sanitized score for input 150 is 100. -/
theorem sanitize_score_counterexample :
    (analyzeText (some { sentiment := some "neutral", score := some 150,
                         intent := some "check price",
                         tags := RawTags.notArray })).score = 100 ∧
    ¬ (analyzeText (some { sentiment := some "neutral", score := some 150,
                           intent := some "check price",
                           tags := RawTags.notArray })).score = 50 := by
  decide

/-- C7 (amended): for every successfully parsed collaborator response, the
sanitized score is an integer in `[0,100]`; an unparsable score collapses
to 50 while an out-of-range numeric score is clamped to the nearest bound
(the amendment: the original claim said out-of-range values also collapse
to 50); the tags list has length at most 5, only string entries survive,
and a non-array tags field yields `[]`; the sentiment lies in the canonical
five-value set, with every unrecognized sentiment string collapsing to
`NEUTRAL`. -/
theorem sanitize_laws_amended (raw : RawAnalysis) :
    0 ≤ (analyzeText (some raw)).score ∧
    (analyzeText (some raw)).score ≤ 100 ∧
    (raw.score = none → (analyzeText (some raw)).score = 50) ∧
    (∀ n : Int, raw.score = some n → 100 < n →
      (analyzeText (some raw)).score = 100) ∧
    (∀ n : Int, raw.score = some n → n < 0 →
      (analyzeText (some raw)).score = 0) ∧
    (analyzeText (some raw)).tags.length ≤ 5 ∧
    (raw.tags = RawTags.notArray → (analyzeText (some raw)).tags = []) ∧
    (analyzeText (some raw)).sentiment ∈
      ["POSITIVE", "NEUTRAL", "NEGATIVE", "VERY_POSITIVE", "VERY_NEGATIVE"] ∧
    (∀ s : String, raw.sentiment = some s →
      lowerString s ∉ ["positive", "negative", "very_positive", "very_negative"] →
      (analyzeText (some raw)).sentiment = "NEUTRAL") := by
  refine ⟨?_, ?_, ?_, ?_, ?_, ?_, ?_, ?_, ?_⟩
  · show (0 : Int) ≤ sanitizeScore raw.score
    unfold sanitizeScore
    exact le_max_left 0 _
  · show sanitizeScore raw.score ≤ 100
    unfold sanitizeScore
    exact max_le (by norm_num) (min_le_left 100 _)
  · intro h
    show sanitizeScore raw.score = 50
    rw [h]
    rfl
  · intro n hn h100
    show sanitizeScore raw.score = 100
    unfold sanitizeScore
    rw [hn]
    have hne : ¬ n = 0 := by omega
    simp only [if_neg hne]
    have : min 100 n = 100 := min_eq_left (by omega)
    rw [this]
    norm_num
  · intro n hn hneg
    show sanitizeScore raw.score = 0
    unfold sanitizeScore
    rw [hn]
    have hne : ¬ n = 0 := by omega
    simp only [if_neg hne]
    have h1 : min 100 n = n := min_eq_right (by omega)
    rw [h1]
    exact max_eq_left (by omega)
  · show (sanitizeTags raw.tags).length ≤ 5
    cases raw.tags with
    | notArray => simp [sanitizeTags]
    | arr l =>
      unfold sanitizeTags
      exact le_trans (List.length_filterMap_le _ _) (List.length_take_le 5 l)
  · intro h
    show sanitizeTags raw.tags = []
    rw [h]
    rfl
  · show toSentimentUpper raw.sentiment ∈ _
    unfold toSentimentUpper
    dsimp only
    split_ifs <;> simp
  · intro s hs hnot
    simp only [List.mem_cons, List.mem_singleton, not_or,
      List.not_mem_nil] at hnot
    show toSentimentUpper raw.sentiment = "NEUTRAL"
    unfold toSentimentUpper
    rw [hs]
    simp [hnot.1, hnot.2.1, hnot.2.2.1, hnot.2.2.2]

/-- A parsed collaborator response with a negative score, an unrecognized
sentiment and a mixed tags array. -/
def rawBad : RawAnalysis :=
  { sentiment := some "meh", score := some (-7), intent := some "",
    tags := RawTags.arr [RawTag.str "a", RawTag.nonString] }

theorem sanitize_laws_amended_witness :
    0 ≤ (analyzeText (some rawBad)).score ∧
    (analyzeText (some rawBad)).score ≤ 100 ∧
    (analyzeText (some rawBad)).score = 0 ∧
    (analyzeText (some rawBad)).tags.length ≤ 5 ∧
    (analyzeText (some rawBad)).sentiment = "NEUTRAL" :=
  ⟨(sanitize_laws_amended rawBad).1,
   (sanitize_laws_amended rawBad).2.1,
   (sanitize_laws_amended rawBad).2.2.2.2.1 (-7) rfl (by decide),
   (sanitize_laws_amended rawBad).2.2.2.2.2.1,
   (sanitize_laws_amended rawBad).2.2.2.2.2.2.2.2 "meh" rfl (by decide)⟩

/-- C8 exhibit: normalization itself is lenient exactly as described —
case-insensitive, unrecognized platform to the `UNKNOWN` sentinel,
unrecognized direction to `INBOUND` — but `UNKNOWN` is not a member of
either the `MessagePlatform` or the `CustomerSource` enum of the Prisma
schema, so the insert the controller then attempts cannot store the
sentinel: the write is rejected, the catch turns the authorized well-formed
`telegram` request into a 500 `{success:false}` with no row created and no
event emitted, contradicting the claimed success. -/
theorem unknown_platform_sentinel_outside_schema :
    toChannelUpper (some "telegram") = "UNKNOWN" ∧
    toChannelUpper (some "WhatsApp") = "WHATSAPP" ∧
    toChannelUpper (some "Instagram") = "INSTAGRAM" ∧
    toDirectionUpper (some "sideways") = "INBOUND" ∧
    toDirectionUpper (some "OUTBOUND") = "OUTBOUND" ∧
    "UNKNOWN" ∉ messagePlatformValues ∧
    "UNKNOWN" ∉ customerSourceValues ∧
    wellFormedPayload
      ⟨some "telegram", some ⟨"Ann", JVal.str "+1", JVal.str "ann@example.com"⟩,
       some sampleMessageInput⟩ = true ∧
    (handleWebhook sampleSecret sampleSecret
        ⟨some "telegram", some ⟨"Ann", JVal.str "+1", JVal.str "ann@example.com"⟩,
         some sampleMessageInput⟩ sampleDb).status = 500 ∧
    (handleWebhook sampleSecret sampleSecret
        ⟨some "telegram", some ⟨"Ann", JVal.str "+1", JVal.str "ann@example.com"⟩,
         some sampleMessageInput⟩ sampleDb).success = false ∧
    (handleWebhook sampleSecret sampleSecret
        ⟨some "telegram", some ⟨"Ann", JVal.str "+1", JVal.str "ann@example.com"⟩,
         some sampleMessageInput⟩ sampleDb).db = sampleDb ∧
    (handleWebhook sampleSecret sampleSecret
        ⟨some "telegram", some ⟨"Ann", JVal.str "+1", JVal.str "ann@example.com"⟩,
         some sampleMessageInput⟩ sampleDb).events = [] := by
  decide
